import Mathlib

/-!
Shallow embedding of `automation/fetch_access_token.py`.

The script loads Zerodha credentials from the environment, performs a
browser login (external), exchanges the request token for an access token
via the KiteConnect SDK (external), optionally writes the token to a file,
and POSTs the token to a backend with a retry loop.

Modelling choices:
* Python values that flow through dictionaries are modelled by `PValue`
  (None, strings, ints, bools) with Python truthiness as `PValue.falsy`.
* A Python dict is an association list `Dict`; `dict.get(k)` is `dictGet`
  (returns `PValue.none` when the key is absent, as Python's `get` does).
* The environment is a function `String → Option String`; `os.getenv k d`
  is `getenvD`.  Python's `str.strip()` is modelled by `String.trim`.
* The HTTP world is an oracle `world : Nat → Outcome` giving the outcome
  of the n-th `requests.post` attempt: either a `requests.RequestException`
  (`Outcome.exn`) or a response with a status code (`Outcome.status`).
  `response.ok` is `status < 400`, as in the requests library.
* Side effects are reified as event traces: `Event.post url payload timeout`
  for each HTTP POST issued, `Event.sleep n` for each `time.sleep(n)`;
  `mainRun` additionally records browser, SDK and file-write effects.
* Raising an exception is returning `Except.error`.
-/

namespace FetchAccessToken

/-- Python runtime values that appear in the script's dictionaries. -/
inductive PValue where
  | none : PValue
  | str : String → PValue
  | int : Int → PValue
  | bool : Bool → PValue
deriving DecidableEq, Repr

/-- Python truthiness: `not v` in the script is `v.falsy`. -/
def PValue.falsy : PValue → Bool
  | PValue.none => true
  | PValue.str s => s == ""
  | PValue.int n => n == 0
  | PValue.bool b => !b

/-- A Python dict with string keys, as an association list. -/
abbrev Dict := List (String × PValue)

/-- Python's `d.get(k)`: the value at `k`, or `None` when absent. -/
def dictGet (d : Dict) (k : String) : PValue :=
  match d.lookup k with
  | some v => v
  | Option.none => PValue.none

/-- The `ZerodhaConfig` dataclass, fields in declaration order. -/
structure ZerodhaConfig where
  api_key : String
  api_secret : String
  totp_secret : String
  user_id : String
  password : String
  token_output_path : Option String
  backend_update_url : String
  backend_source_label : String
deriving DecidableEq, Repr

/-- The module-level `DEFAULT_BACKEND_UPDATE_URL` constant. -/
def DEFAULT_BACKEND_UPDATE_URL : String :=
  "https://web-production-de0bc.up.railway.app/api/modules/auth/broker/token/update"

/-- Exceptions the script can raise. `missingConfig` is the `ValueError`
raised by `load_config`, carrying the list of missing field names that the
Python message interpolates. -/
inductive Err where
  | missingConfig : List String → Err
  | valueError : String → Err
  | keyError : String → Err
  | runtimeError : String → Err
deriving DecidableEq, Repr

/-- Python's `os.getenv(name, dflt)` over the abstract environment. -/
def getenvD (env : String → Option String) (name dflt : String) : String :=
  (env name).getD dflt

/-- The whitespace characters removed by Python's `str.strip()`:
space, tab, newline, carriage return, vertical tab and form feed. -/
def isPySpace (c : Char) : Bool :=
  c == ' ' || c == '\t' || c == '\n' || c == '\r' || c == '\x0b' || c == '\x0c'

/-- Python's `str.strip()` on the underlying character list: drop
whitespace from the front, then from the back. -/
def stripChars (l : List Char) : List Char :=
  ((l.dropWhile isPySpace).reverse.dropWhile isPySpace).reverse

/-- Python's `str.strip()` (leading and trailing whitespace removal). -/
def strip (s : String) : String := String.mk (stripChars s.data)

/-- The `ZerodhaConfig(...)` construction inside `load_config`, line by
line: the five required `Z_` variables are stripped; `TOKEN_OUTPUT_PATH`
is stripped and `or None`; `BACKEND_UPDATE_URL` is stripped and defaulted
to `DEFAULT_BACKEND_UPDATE_URL`; `BACKEND_SOURCE_LABEL` uses the getenv
default `"automation"` and `or "automation"`, with no strip. -/
def mkConfig (env : String → Option String) : ZerodhaConfig :=
  { api_key := strip (getenvD env "Z_API_KEY" "")
    api_secret := strip (getenvD env "Z_API_SECRET" "")
    totp_secret := strip (getenvD env "Z_TOTP_SECRET" "")
    user_id := strip (getenvD env "Z_USER_ID" "")
    password := strip (getenvD env "Z_PASSWORD" "")
    token_output_path :=
      let v := strip (getenvD env "TOKEN_OUTPUT_PATH" "")
      if v = "" then Option.none else some v
    backend_update_url :=
      let v := strip (getenvD env "BACKEND_UPDATE_URL" "")
      if v = "" then DEFAULT_BACKEND_UPDATE_URL else v
    backend_source_label :=
      let v := getenvD env "BACKEND_SOURCE_LABEL" "automation"
      if v = "" then "automation" else v }

/-- The `missing` list comprehension in `load_config`: every dataclass
field whose value is `""` (or `None`), in field declaration order, except
`token_output_path` and `backend_source_label`.  String fields can only
match `""`; the `Option String` field `token_output_path` is excluded. -/
def missingFields (cfg : ZerodhaConfig) : List String :=
  (([("api_key", cfg.api_key), ("api_secret", cfg.api_secret),
     ("totp_secret", cfg.totp_secret), ("user_id", cfg.user_id),
     ("password", cfg.password),
     ("backend_update_url", cfg.backend_update_url)].filter
      (fun p => p.2 == "")).map Prod.fst)

/-- The `load_config` function: build the config from the environment and
raise `ValueError` when any required field is missing. -/
def loadConfig (env : String → Option String) : Except Err ZerodhaConfig :=
  let cfg := mkConfig env
  if missingFields cfg = [] then Except.ok cfg
  else Except.error (Err.missingConfig (missingFields cfg))

/-- Outcome of one `requests.post` attempt: a `requests.RequestException`,
or a response carrying its HTTP status code. -/
inductive Outcome where
  | exn : Outcome
  | status : Nat → Outcome
deriving DecidableEq, Repr

/-- Whether the attempt hit `response.ok`: a response arrived and its
status code is below 400 (the requests library's definition of `ok`). -/
def attemptOk : Outcome → Bool
  | Outcome.exn => false
  | Outcome.status code => code < 400

/-- Observable effects of `notify_backend`: an HTTP POST with its URL,
JSON payload and timeout, and a `time.sleep` with its duration. -/
inductive Event where
  | post : String → Dict → Nat → Event
  | sleep : Nat → Event
deriving DecidableEq, Repr

/-- The `payload` dict literal built at the top of `notify_backend`. -/
def mkPayload (cfg : ZerodhaConfig) (session : Dict) : Dict :=
  [("user_id", PValue.str cfg.user_id),
   ("access_token", dictGet session "access_token"),
   ("expires_in", dictGet session "expires_in"),
   ("expires_at", dictGet session "expires_at"),
   ("source", PValue.str cfg.backend_source_label)]

/-- The `for attempt in range(1, max_retries + 1)` loop of
`notify_backend`, over the list of remaining attempt numbers.  Each
attempt issues a POST; on `response.ok` the function returns, otherwise
(non-ok status or `RequestException`) it sleeps `retry_delay * attempt`
when `attempt < max_retries` and continues; after the loop it raises
`RuntimeError`. -/
def notifyGo (url : String) (payload : Dict) (retryDelay maxRetries : Nat)
    (world : Nat → Outcome) : List Nat → List Event × Except Err Unit
  | [] => ([], Except.error (Err.runtimeError
      "Unable to update backend with new access token after retries"))
  | attempt :: rest =>
    if attemptOk (world attempt) then
      ([Event.post url payload 20], Except.ok ())
    else
      let next := notifyGo url payload retryDelay maxRetries world rest
      if attempt < maxRetries then
        (Event.post url payload 20 :: Event.sleep (retryDelay * attempt) :: next.1,
         next.2)
      else
        (Event.post url payload 20 :: next.1, next.2)

/-- The `notify_backend` function.  `main` calls it with the default
arguments `max_retries = 3`, `retry_delay = 5`. -/
def notifyBackend (cfg : ZerodhaConfig) (session : Dict) (world : Nat → Outcome)
    (maxRetries retryDelay : Nat) : List Event × Except Err Unit :=
  let payload := mkPayload cfg session
  if (dictGet payload "access_token").falsy then
    ([], Except.error (Err.valueError "Session data missing access_token"))
  else
    notifyGo cfg.backend_update_url payload retryDelay maxRetries world
      (List.range' 1 maxRetries)

/-- Observable effects of `main`: launching the browser login, calling the
SDK token exchange, writing a file, and the HTTP/sleep effects of
`notify_backend`. -/
inductive MainEvent where
  | browserLogin : MainEvent
  | sdkExchange : MainEvent
  | fileWrite : String → PValue → MainEvent
  | http : Event → MainEvent
deriving DecidableEq, Repr

/-- The pure tail of `generate_access_token`, after the external call
`kite.generate_session(...)` produced `session`: index
`session["access_token"]` (a `KeyError` when absent), write the token to
`cfg.token_output_path` when that is set, and return the session dict. -/
def generateAccessToken (cfg : ZerodhaConfig) (session : Dict) :
    List MainEvent × Except Err Dict :=
  match session.lookup "access_token" with
  | Option.none => ([], Except.error (Err.keyError "access_token"))
  | some v =>
    match cfg.token_output_path with
    | some path => ([MainEvent.fileWrite path v], Except.ok session)
    | Option.none => ([], Except.ok session)

/-- The `main` function as a pipeline.  The browser login and the SDK
session exchange are external: they are supplied as oracles `login`
(producing the request token or raising) and `sdk` (producing the session
dict or raising).  Each stage's effects are appended to the trace; an
exception aborts the pipeline. -/
def mainRun (env : String → Option String)
    (login : ZerodhaConfig → Except Err String)
    (sdk : ZerodhaConfig → String → Except Err Dict)
    (world : Nat → Outcome) : List MainEvent × Except Err Unit :=
  match loadConfig env with
  | Except.error e => ([], Except.error e)
  | Except.ok cfg =>
    match login cfg with
    | Except.error e => ([MainEvent.browserLogin], Except.error e)
    | Except.ok request_token =>
      match sdk cfg request_token with
      | Except.error e =>
        ([MainEvent.browserLogin, MainEvent.sdkExchange], Except.error e)
      | Except.ok session =>
        let g := generateAccessToken cfg session
        match g.2 with
        | Except.error e =>
          ([MainEvent.browserLogin, MainEvent.sdkExchange] ++ g.1, Except.error e)
        | Except.ok session2 =>
          let n := notifyBackend cfg session2 world 3 5
          ([MainEvent.browserLogin, MainEvent.sdkExchange] ++ g.1 ++
             n.1.map MainEvent.http, n.2)

/-- The five required dataclass fields paired with their environment
variable names, in dataclass declaration order. -/
def requiredEnvPairs : List (String × String) :=
  [("api_key", "Z_API_KEY"), ("api_secret", "Z_API_SECRET"),
   ("totp_secret", "Z_TOTP_SECRET"), ("user_id", "Z_USER_ID"),
   ("password", "Z_PASSWORD")]

/-- The required field names whose environment value strips to the empty
string, in dataclass declaration order. -/
def emptyRequired (env : String → Option String) : List String :=
  (requiredEnvPairs.filter
    (fun p => strip ((env p.2).getD "") == "")).map Prod.fst

/-- A concrete well-formed configuration used by witnesses. -/
def testCfg : ZerodhaConfig :=
  { api_key := "k", api_secret := "s", totp_secret := "t", user_id := "u"
    password := "p", token_output_path := Option.none
    backend_update_url := "https://example.test/update"
    backend_source_label := "automation" }

/-- A concrete session dict holding an access token, used by witnesses. -/
def testSession : Dict :=
  [("access_token", PValue.str "tok"), ("expires_in", PValue.int 86400),
   ("expires_at", PValue.str "2026-10-13 06:00:00")]

/-- A concrete environment with all five required variables set and the
three optional variables unset. -/
def testEnv : String → Option String := fun k =>
  if k = "Z_API_KEY" then some "k"
  else if k = "Z_API_SECRET" then some "s"
  else if k = "Z_TOTP_SECRET" then some "t"
  else if k = "Z_USER_ID" then some "u"
  else if k = "Z_PASSWORD" then some "p"
  else Option.none

/-- The payload's `access_token` entry is exactly `session.get("access_token")`. -/
theorem dictGet_mkPayload_token (cfg : ZerodhaConfig) (session : Dict) :
    dictGet (mkPayload cfg session) "access_token" = dictGet session "access_token" := by
  simp [mkPayload, dictGet, List.lookup]

/-- Claim C2: whenever the first HTTP POST of `notify_backend` (called as
`main` calls it, with `max_retries = 3` and `retry_delay = 5`) returns a
2xx status, `notify_backend` returns successfully after making exactly one
HTTP call, with no sleep and no retry. -/
theorem notify_backend_first_2xx (cfg : ZerodhaConfig) (session : Dict)
    (world : Nat → Outcome) (code : Nat)
    (htok : (dictGet session "access_token").falsy = false)
    (hw : world 1 = Outcome.status code) (hlo : 200 ≤ code) (hhi : code < 300) :
    notifyBackend cfg session world 3 5 =
      ([Event.post cfg.backend_update_url (mkPayload cfg session) 20],
       Except.ok ()) := by
  have hok : attemptOk (world 1) = true := by
    rw [hw]; simp [attemptOk]; omega
  simp [notifyBackend, dictGet_mkPayload_token, htok, List.range', notifyGo, hok]

/-- Claim C2 witness: a concrete run whose first attempt returns 200. -/
theorem notify_backend_first_2xx_witness :
    notifyBackend testCfg testSession (fun _ => Outcome.status 200) 3 5 =
      ([Event.post testCfg.backend_update_url (mkPayload testCfg testSession) 20],
       Except.ok ()) :=
  notify_backend_first_2xx testCfg testSession (fun _ => Outcome.status 200) 200
    rfl rfl (by decide) (by decide)

/-- Claim C3: when the key `"access_token"` is absent from the session
dict, `notify_backend` raises `ValueError` with an empty effect trace: no
HTTP call, no sleep, no retry, for any `max_retries` and `retry_delay`. -/
theorem notify_backend_absent_token (cfg : ZerodhaConfig) (session : Dict)
    (world : Nat → Outcome) (maxRetries retryDelay : Nat)
    (h : session.lookup "access_token" = Option.none) :
    notifyBackend cfg session world maxRetries retryDelay =
      ([], Except.error (Err.valueError "Session data missing access_token")) := by
  have htok : dictGet session "access_token" = PValue.none := by
    simp [dictGet, h]
  simp [notifyBackend, dictGet_mkPayload_token, htok, PValue.falsy]

/-- Claim C3 witness: a session dict with no `"access_token"` key. -/
theorem notify_backend_absent_token_witness :
    notifyBackend testCfg [("expires_in", PValue.int 86400)]
        (fun _ => Outcome.status 200) 3 5 =
      ([], Except.error (Err.valueError "Session data missing access_token")) :=
  notify_backend_absent_token testCfg [("expires_in", PValue.int 86400)]
    (fun _ => Outcome.status 200) 3 5 rfl

/-- Claim C8: when the key `"access_token"` is present but maps to a falsy
value (`None` or the empty string), `notify_backend` raises the same
`ValueError` as when the key is absent, with no HTTP call made. -/
theorem notify_backend_falsy_token (cfg : ZerodhaConfig) (session : Dict)
    (world : Nat → Outcome) (maxRetries retryDelay : Nat) (v : PValue)
    (h : session.lookup "access_token" = some v) (hv : v.falsy = true) :
    notifyBackend cfg session world maxRetries retryDelay =
      ([], Except.error (Err.valueError "Session data missing access_token")) := by
  have htok : dictGet session "access_token" = v := by
    simp [dictGet, h]
  simp [notifyBackend, dictGet_mkPayload_token, htok, hv]

/-- Claim C8 witness: `"access_token"` present, mapped to `""`. -/
theorem notify_backend_falsy_token_witness :
    notifyBackend testCfg [("access_token", PValue.str "")]
        (fun _ => Outcome.status 200) 3 5 =
      ([], Except.error (Err.valueError "Session data missing access_token")) :=
  notify_backend_falsy_token testCfg [("access_token", PValue.str "")]
    (fun _ => Outcome.status 200) 3 5 (PValue.str "") rfl rfl

/-- Claim C1: when all three attempts fail (a `RequestException` or a
non-ok status; in particular any 5xx status), `notify_backend` with the
default arguments makes exactly 3 HTTP POSTs, sleeps 5 seconds after the
first failed attempt and 10 seconds after the second, sleeps nothing after
the third, and raises the terminal `RuntimeError`. -/
theorem notify_backend_exhausts_retries (cfg : ZerodhaConfig) (session : Dict)
    (world : Nat → Outcome)
    (htok : (dictGet session "access_token").falsy = false)
    (h1 : attemptOk (world 1) = false) (h2 : attemptOk (world 2) = false)
    (h3 : attemptOk (world 3) = false) :
    notifyBackend cfg session world 3 5 =
      ([Event.post cfg.backend_update_url (mkPayload cfg session) 20,
        Event.sleep 5,
        Event.post cfg.backend_update_url (mkPayload cfg session) 20,
        Event.sleep 10,
        Event.post cfg.backend_update_url (mkPayload cfg session) 20],
       Except.error (Err.runtimeError
         "Unable to update backend with new access token after retries")) := by
  simp [notifyBackend, dictGet_mkPayload_token, htok, List.range', notifyGo,
    h1, h2, h3]

/-- Claim C1 witness: every attempt returns status 503. -/
theorem notify_backend_exhausts_retries_witness :
    notifyBackend testCfg testSession (fun _ => Outcome.status 503) 3 5 =
      ([Event.post testCfg.backend_update_url (mkPayload testCfg testSession) 20,
        Event.sleep 5,
        Event.post testCfg.backend_update_url (mkPayload testCfg testSession) 20,
        Event.sleep 10,
        Event.post testCfg.backend_update_url (mkPayload testCfg testSession) 20],
       Except.error (Err.runtimeError
         "Unable to update backend with new access token after retries")) :=
  notify_backend_exhausts_retries testCfg testSession (fun _ => Outcome.status 503)
    rfl rfl rfl rfl

/-- Claim C4 counterexample: a 300 status is outside 2xx, and attempt 1 of
3 is not the final attempt, so the claim as stated requires a
`retry_delay * attempt` sleep followed by another POST; but the code tests
`response.ok`, which is `status < 400`, so a 3xx response is treated as
success: the run makes exactly one POST, never sleeps, and returns
successfully. -/
theorem notify_backend_3xx_no_retry :
    notifyBackend testCfg testSession (fun _ => Outcome.status 300) 3 5 =
      ([Event.post testCfg.backend_update_url (mkPayload testCfg testSession) 20],
       Except.ok ()) ∧
    ¬ (200 ≤ 300 ∧ 300 < 300) := by
  constructor
  · rfl
  · omega

/-- Claim C4 amended: for every attempt that gets a non-ok outcome (an
HTTP status of 400 or above, or a network exception) and that is not the
final attempt, the loop emits its POST, then sleeps `retry_delay * attempt`
seconds, then continues with the remaining attempts, whose trace begins
with the retried POST; the final result is that of the remaining
attempts. -/
theorem notify_backend_linear_backoff (url : String) (payload : Dict)
    (retryDelay maxRetries : Nat) (world : Nat → Outcome)
    (attempt j : Nat) (rest : List Nat)
    (hfail : attemptOk (world attempt) = false) (hlt : attempt < maxRetries) :
    notifyGo url payload retryDelay maxRetries world (attempt :: j :: rest) =
      (Event.post url payload 20 :: Event.sleep (retryDelay * attempt) ::
         (notifyGo url payload retryDelay maxRetries world (j :: rest)).1,
       (notifyGo url payload retryDelay maxRetries world (j :: rest)).2) ∧
    ∃ tail, (notifyGo url payload retryDelay maxRetries world (j :: rest)).1 =
      Event.post url payload 20 :: tail := by
  constructor
  · simp [notifyGo, hfail, hlt]
  · by_cases hok : attemptOk (world j) = true
    · exact ⟨[], by simp [notifyGo, hok]⟩
    · rw [Bool.not_eq_true] at hok
      by_cases hj : j < maxRetries
      · exact ⟨Event.sleep (retryDelay * j) ::
            (notifyGo url payload retryDelay maxRetries world rest).1,
          by simp [notifyGo, hok, hj]⟩
      · exact ⟨(notifyGo url payload retryDelay maxRetries world rest).1,
          by simp [notifyGo, hok, hj]⟩

/-- Claim C4 amended witness: attempt 1 gets a 500 status with two
attempts remaining; the trace is POST, sleep 5, POST, sleep 10, POST. -/
theorem notify_backend_linear_backoff_witness :
    notifyGo "u" [] 5 3 (fun _ => Outcome.status 500) [1, 2, 3] =
      (Event.post "u" [] 20 :: Event.sleep 5 ::
         (notifyGo "u" [] 5 3 (fun _ => Outcome.status 500) [2, 3]).1,
       (notifyGo "u" [] 5 3 (fun _ => Outcome.status 500) [2, 3]).2) ∧
    ∃ tail, (notifyGo "u" [] 5 3 (fun _ => Outcome.status 500) [2, 3]).1 =
      Event.post "u" [] 20 :: tail :=
  notify_backend_linear_backoff "u" [] 5 3 (fun _ => Outcome.status 500) 1 2 [3]
    rfl (by decide)

/-- Helper: every event the retry loop emits is either the POST with the
loop's fixed url, payload and timeout 20, or a sleep. -/
theorem notifyGo_events (url : String) (payload : Dict)
    (retryDelay maxRetries : Nat) (world : Nat → Outcome) (l : List Nat) :
    ∀ e ∈ (notifyGo url payload retryDelay maxRetries world l).1,
      e = Event.post url payload 20 ∨ ∃ n, e = Event.sleep n := by
  induction l with
  | nil => simp [notifyGo]
  | cons a rest ih =>
    intro e he
    by_cases hok : attemptOk (world a) = true
    · simp [notifyGo, hok] at he
      exact Or.inl he
    · rw [Bool.not_eq_true] at hok
      by_cases ha : a < maxRetries
      · simp [notifyGo, hok, ha] at he
        rcases he with he | he | he
        · exact Or.inl he
        · exact Or.inr ⟨retryDelay * a, he⟩
        · exact ih e he
      · simp [notifyGo, hok, ha] at he
        rcases he with he | he
        · exact Or.inl he
        · exact ih e he

/-- Claim C6: every HTTP POST that `notify_backend` makes is sent to
`cfg.backend_update_url` with a 20-second timeout, and its JSON body is
the payload dict whose keys are exactly
`user_id, access_token, expires_in, expires_at, source`, with `user_id`
and `source` taken from the config and the token and expiry fields taken
from `session_data` via `dict.get`. -/
theorem notify_backend_post_shape (cfg : ZerodhaConfig) (session : Dict)
    (world : Nat → Outcome) (maxRetries retryDelay : Nat)
    (url : String) (p : Dict) (t : Nat)
    (h : Event.post url p t ∈ (notifyBackend cfg session world maxRetries retryDelay).1) :
    url = cfg.backend_update_url ∧ t = 20 ∧ p = mkPayload cfg session ∧
    p.map Prod.fst =
      ["user_id", "access_token", "expires_in", "expires_at", "source"] ∧
    dictGet p "user_id" = PValue.str cfg.user_id ∧
    dictGet p "access_token" = dictGet session "access_token" ∧
    dictGet p "expires_in" = dictGet session "expires_in" ∧
    dictGet p "expires_at" = dictGet session "expires_at" ∧
    dictGet p "source" = PValue.str cfg.backend_source_label := by
  have hmem : Event.post url p t = Event.post cfg.backend_update_url
      (mkPayload cfg session) 20 := by
    unfold notifyBackend at h
    by_cases hf : (dictGet (mkPayload cfg session) "access_token").falsy = true
    · simp [hf] at h
    · rw [Bool.not_eq_true] at hf
      simp [hf] at h
      rcases notifyGo_events cfg.backend_update_url (mkPayload cfg session)
          retryDelay maxRetries world (List.range' 1 maxRetries) _ h with
        hpost | ⟨n, hsleep⟩
      · exact hpost
      · exact absurd hsleep (by simp)
  rcases Event.post.inj hmem with ⟨hurl, hp, ht⟩
  subst hurl hp ht
  refine ⟨rfl, rfl, rfl, rfl, rfl, dictGet_mkPayload_token cfg session, ?_, ?_, rfl⟩
  · simp [mkPayload, dictGet, List.lookup]
  · simp [mkPayload, dictGet, List.lookup]

/-- Claim C6 witness: the single POST of a successful concrete run has
the configured URL, the exact payload and the 20-second timeout. -/
theorem notify_backend_post_shape_witness :
    testCfg.backend_update_url = testCfg.backend_update_url ∧ (20 : Nat) = 20 ∧
    mkPayload testCfg testSession = mkPayload testCfg testSession ∧
    (mkPayload testCfg testSession).map Prod.fst =
      ["user_id", "access_token", "expires_in", "expires_at", "source"] ∧
    dictGet (mkPayload testCfg testSession) "user_id" = PValue.str testCfg.user_id ∧
    dictGet (mkPayload testCfg testSession) "access_token" =
      dictGet testSession "access_token" ∧
    dictGet (mkPayload testCfg testSession) "expires_in" =
      dictGet testSession "expires_in" ∧
    dictGet (mkPayload testCfg testSession) "expires_at" =
      dictGet testSession "expires_at" ∧
    dictGet (mkPayload testCfg testSession) "source" =
      PValue.str testCfg.backend_source_label :=
  notify_backend_post_shape testCfg testSession (fun _ => Outcome.status 200) 3 5
    testCfg.backend_update_url (mkPayload testCfg testSession) 20
    (by decide)

/-- Helper: the backend URL field built by `mkConfig` is never the empty
string, because the empty (stripped) environment value falls back to the
non-empty default URL. -/
theorem mkConfig_backend_update_url_ne (env : String → Option String) :
    (mkConfig env).backend_update_url ≠ "" := by
  simp only [mkConfig]
  by_cases hv : strip (getenvD env "BACKEND_UPDATE_URL" "") = ""
  · simp [hv, DEFAULT_BACKEND_UPDATE_URL]
  · simp [hv]

/-- Helper: the `missing` list computed by `load_config` is exactly the
required field names (in dataclass order) whose environment value strips
to the empty string. -/
theorem missingFields_mkConfig (env : String → Option String) :
    missingFields (mkConfig env) = emptyRequired env := by
  by_cases c6 : strip ((env "BACKEND_UPDATE_URL").getD "") = "" <;>
  by_cases c1 : strip ((env "Z_API_KEY").getD "") = "" <;>
  by_cases c2 : strip ((env "Z_API_SECRET").getD "") = "" <;>
  by_cases c3 : strip ((env "Z_TOTP_SECRET").getD "") = "" <;>
  by_cases c4 : strip ((env "Z_USER_ID").getD "") = "" <;>
  by_cases c5 : strip ((env "Z_PASSWORD").getD "") = "" <;>
    simp [missingFields, emptyRequired, requiredEnvPairs, mkConfig, getenvD,
      DEFAULT_BACKEND_UPDATE_URL, c1, c2, c3, c4, c5, c6]

/-- Claim C5: when some required configuration field is empty after
stripping, `load_config` raises a `ValueError` naming exactly the missing
fields, and `main` performs no browser, SDK, file or HTTP effect at all:
its trace is empty. -/
theorem load_config_fails_fast (env : String → Option String)
    (login : ZerodhaConfig → Except Err String)
    (sdk : ZerodhaConfig → String → Except Err Dict) (world : Nat → Outcome)
    (h : emptyRequired env ≠ []) :
    loadConfig env = Except.error (Err.missingConfig (emptyRequired env)) ∧
    mainRun env login sdk world =
      ([], Except.error (Err.missingConfig (emptyRequired env))) := by
  have hload : loadConfig env =
      Except.error (Err.missingConfig (emptyRequired env)) := by
    simp [loadConfig, missingFields_mkConfig, h]
  exact ⟨hload, by simp [mainRun, hload]⟩

/-- Concrete environment for the C5 witness: only `Z_API_KEY` is set. -/
def envMissing : String → Option String := fun k =>
  if k = "Z_API_KEY" then some "k" else Option.none

/-- Claim C5 witness: with only `Z_API_KEY` set, `load_config` fails
naming the other four required fields and `main` has an empty trace. -/
theorem load_config_fails_fast_witness :
    loadConfig envMissing = Except.error (Err.missingConfig
      ["api_secret", "totp_secret", "user_id", "password"]) ∧
    mainRun envMissing (fun _ => Except.ok "rt")
        (fun _ _ => Except.ok testSession) (fun _ => Outcome.status 200) =
      ([], Except.error (Err.missingConfig
        ["api_secret", "totp_secret", "user_id", "password"])) :=
  load_config_fails_fast envMissing (fun _ => Except.ok "rt")
    (fun _ _ => Except.ok testSession) (fun _ => Outcome.status 200) (by decide)

/-- Claim C10: when the five required variables are set to values that are
non-empty after stripping and the three optional variables are unset or
empty, `load_config` succeeds with the default backend URL, the source
label `"automation"` and no token output path; in particular the two
backend fields are non-empty. -/
theorem load_config_defaults (env : String → Option String)
    (h1 : strip ((env "Z_API_KEY").getD "") ≠ "")
    (h2 : strip ((env "Z_API_SECRET").getD "") ≠ "")
    (h3 : strip ((env "Z_TOTP_SECRET").getD "") ≠ "")
    (h4 : strip ((env "Z_USER_ID").getD "") ≠ "")
    (h5 : strip ((env "Z_PASSWORD").getD "") ≠ "")
    (hu : env "BACKEND_UPDATE_URL" = Option.none ∨
      env "BACKEND_UPDATE_URL" = some "")
    (hl : env "BACKEND_SOURCE_LABEL" = Option.none ∨
      env "BACKEND_SOURCE_LABEL" = some "")
    (ht : env "TOKEN_OUTPUT_PATH" = Option.none ∨
      env "TOKEN_OUTPUT_PATH" = some "") :
    loadConfig env = Except.ok (mkConfig env) ∧
    (mkConfig env).backend_update_url = DEFAULT_BACKEND_UPDATE_URL ∧
    (mkConfig env).backend_source_label = "automation" ∧
    (mkConfig env).token_output_path = Option.none ∧
    (mkConfig env).backend_update_url ≠ "" ∧
    (mkConfig env).backend_source_label ≠ "" := by
  have hload : loadConfig env = Except.ok (mkConfig env) := by
    have hempty : emptyRequired env = [] := by
      have b1 := beq_eq_false_iff_ne.mpr h1
      have b2 := beq_eq_false_iff_ne.mpr h2
      have b3 := beq_eq_false_iff_ne.mpr h3
      have b4 := beq_eq_false_iff_ne.mpr h4
      have b5 := beq_eq_false_iff_ne.mpr h5
      simp [emptyRequired, requiredEnvPairs, List.filter, getenvD,
        b1, b2, b3, b4, b5]
    simp [loadConfig, missingFields_mkConfig, hempty]
  have hurl : (mkConfig env).backend_update_url = DEFAULT_BACKEND_UPDATE_URL := by
    rcases hu with hu | hu <;> simp [mkConfig, getenvD, hu, strip, stripChars]
  have hlab : (mkConfig env).backend_source_label = "automation" := by
    rcases hl with hl | hl <;> simp [mkConfig, getenvD, hl]
  have hpath : (mkConfig env).token_output_path = Option.none := by
    rcases ht with ht | ht <;> simp [mkConfig, getenvD, ht, strip, stripChars]
  refine ⟨hload, hurl, hlab, hpath, ?_, ?_⟩
  · rw [hurl]; decide
  · rw [hlab]; decide

/-- Claim C10 witness: the five required variables set, all optional
variables unset. -/
theorem load_config_defaults_witness :
    loadConfig testEnv = Except.ok (mkConfig testEnv) ∧
    (mkConfig testEnv).backend_update_url = DEFAULT_BACKEND_UPDATE_URL ∧
    (mkConfig testEnv).backend_source_label = "automation" ∧
    (mkConfig testEnv).token_output_path = Option.none ∧
    (mkConfig testEnv).backend_update_url ≠ "" ∧
    (mkConfig testEnv).backend_source_label ≠ "" :=
  load_config_defaults testEnv (by decide) (by decide) (by decide) (by decide)
    (by decide) (Or.inl rfl) (Or.inl rfl) (Or.inl rfl)

/-- Claim C7: given a session holding an access token, the pure tail of
`generate_access_token` writes exactly that token value to
`cfg.token_output_path` when the path is set, performs no write when it is
`None`, and in both cases returns the session data unchanged. -/
theorem generate_access_token_frame (cfg : ZerodhaConfig) (session : Dict)
    (v : PValue) (h : session.lookup "access_token" = some v) :
    generateAccessToken cfg session =
      ((match cfg.token_output_path with
        | some path => [MainEvent.fileWrite path v]
        | Option.none => ([] : List MainEvent)),
       Except.ok session) := by
  unfold generateAccessToken
  rw [h]
  cases cfg.token_output_path <;> rfl

/-- A copy of `testCfg` with a token output path set. -/
def testCfgPath : ZerodhaConfig :=
  { testCfg with token_output_path := some "token.txt" }

/-- Claim C7 witness: with the path set the trace is the single write of
the raw token; with the path unset the trace is empty; the session is
returned unchanged in both runs. -/
theorem generate_access_token_frame_witness :
    generateAccessToken testCfgPath testSession =
      ([MainEvent.fileWrite "token.txt" (PValue.str "tok")],
       Except.ok testSession) ∧
    generateAccessToken testCfg testSession = ([], Except.ok testSession) :=
  ⟨generate_access_token_frame testCfgPath testSession (PValue.str "tok") rfl,
   generate_access_token_frame testCfg testSession (PValue.str "tok") rfl⟩

/-- Concrete environment for the C9 counterexample: the five required
variables are set and `BACKEND_SOURCE_LABEL` is set to a string with
surrounding whitespace. -/
def envLabel : String → Option String := fun k =>
  if k = "BACKEND_SOURCE_LABEL" then some " custom " else testEnv k

/-- Claim C9 counterexample: `load_config` does not strip every
environment value.  `BACKEND_SOURCE_LABEL = " custom "` survives with its
surrounding whitespace in the resulting config, although stripping would
have produced a different string. -/
theorem load_config_label_not_stripped :
    loadConfig envLabel = Except.ok
      { api_key := "k", api_secret := "s", totp_secret := "t", user_id := "u"
        password := "p", token_output_path := Option.none
        backend_update_url := DEFAULT_BACKEND_UPDATE_URL
        backend_source_label := " custom " } ∧
    strip " custom " ≠ " custom " := by
  constructor
  · rfl
  · decide

/-- Claim C9 amended: `load_config` strips every environment value except
`BACKEND_SOURCE_LABEL`; in particular, setting a required variable to a
whitespace-only string yields exactly the same result as leaving it unset,
including the same `ValueError`. -/
theorem load_config_blank_required_is_unset (env : String → Option String)
    (name s : String)
    (hname : name ∈ ["Z_API_KEY", "Z_API_SECRET", "Z_TOTP_SECRET",
      "Z_USER_ID", "Z_PASSWORD"])
    (hs : strip s = "") :
    loadConfig (fun k => if k = name then some s else env k) =
      loadConfig (fun k => if k = name then Option.none else env k) := by
  have hcfg : mkConfig (fun k => if k = name then some s else env k) =
      mkConfig (fun k => if k = name then Option.none else env k) := by
    have hnil : strip "" = "" := rfl
    fin_cases hname <;>
      simp [mkConfig, getenvD, hs, hnil]
  simp [loadConfig, hcfg]

/-- Claim C9 amended witness: `Z_API_KEY` set to whitespace behaves like
an unset `Z_API_KEY`. -/
theorem load_config_blank_required_is_unset_witness :
    strip "  " = "" ∧
    loadConfig (fun k => if k = "Z_API_KEY" then some "  " else testEnv k) =
      loadConfig (fun k => if k = "Z_API_KEY" then Option.none else testEnv k) :=
  ⟨by decide,
   load_config_blank_required_is_unset testEnv "Z_API_KEY" "  "
     (by decide) (by decide)⟩

end FetchAccessToken
